import Mathlib

/-!
Verification of the extraction core of `website_scraper.py`
(repository `website-details-scraper`).

The Python code is shallowly embedded: each extractor of the
`WebsiteScraper` class becomes a pure Lean function over `String`
(respectively over a DOM tree for the BeautifulSoup-based extractors).
Python's `re.search` / `re.findall` are modelled by a small backtracking
regular-expression engine (`Re`) whose preference order (leftmost start,
left alternative first, greedy repetition) mirrors the Python `re`
module on the pattern shapes the scraper uses.  Character classes are
modelled over ASCII (the scraper's patterns and the claims' inputs are
ASCII).
-/

namespace Scraper

/-! ## Generic list and string utilities -/

/-- Boolean lexicographic comparison of character lists by code point,
the order Python's `sorted` uses on ASCII strings. -/
def lexLe : List Char → List Char → Bool
  | [], _ => true
  | _ :: _, [] => false
  | a :: as, b :: bs => if a < b then true else if a = b then lexLe as bs else false

/-- The string order used when modelling Python's `sorted`. -/
def strLe (a b : String) : Bool := lexLe a.data b.data

/-- Does `needle` occur as a contiguous segment of `hay`?  Models
Python's `x in s` substring test. -/
def containsSeg (hay needle : List Char) : Bool :=
  match hay with
  | [] => needle.isEmpty
  | _ :: rest => needle.isPrefixOf hay || containsSeg rest needle

/-- Model of Python's `s.startswith(pre)`. -/
def pyStartswith (s pre : String) : Bool := pre.data.isPrefixOf s.data

/-- Table of upper-case to lower-case ASCII letters. -/
def lowerPairs : List (Char × Char) :=
  [('A','a'), ('B','b'), ('C','c'), ('D','d'), ('E','e'), ('F','f'), ('G','g'),
   ('H','h'), ('I','i'), ('J','j'), ('K','k'), ('L','l'), ('M','m'), ('N','n'),
   ('O','o'), ('P','p'), ('Q','q'), ('R','r'), ('S','s'), ('T','t'), ('U','u'),
   ('V','v'), ('W','w'), ('X','x'), ('Y','y'), ('Z','z')]

/-- ASCII model of Python's `str.lower` on a single character. -/
def lowerChar (c : Char) : Char :=
  ((lowerPairs.find? (fun p => p.1 == c)).map (fun p => p.2)).getD c

/-- ASCII model of Python's `str.lower`. -/
def lowerStr (s : String) : String := String.mk (s.data.map lowerChar)

/-- Model of Python's `sorted(list(set(l)))`: de-duplicate, then sort
lexicographically ascending. -/
def sortDistinct (l : List String) : List String :=
  l.dedup.insertionSort (fun a b => strLe a b = true)

/-! ## Regular-expression engine

`Re` covers exactly the pattern shapes appearing in the scraper:
literal strings, single-character classes, concatenation, alternation,
greedy option and greedy bounded or unbounded repetition of a class. -/

inductive Re where
  | lit : List Char → Re
  | cls : (Char → Bool) → Re
  | cat : Re → Re → Re
  | alt : Re → Re → Re
  | opt : Re → Re
  | rep : (Char → Bool) → Nat → Option Nat → Re

/-- All suffixes of `s` remaining after a match of `r` at the start of
`s`, in the backtracking engine's preference order: left alternative
first, longer repetition first.  The head of this list is the match
Python's `re` engine commits to. -/
def Re.nexts : Re → List Char → List (List Char)
  | .lit l, s => if l.isPrefixOf s then [s.drop l.length] else []
  | .cls _, [] => []
  | .cls p, c :: rest => if p c then [rest] else []
  | .cat a b, s => (a.nexts s).flatMap (fun t => b.nexts t)
  | .alt a b, s => a.nexts s ++ b.nexts s
  | .opt a, s => a.nexts s ++ [s]
  | .rep p lo hi, s =>
      let mx := (s.takeWhile p).length
      let top := match hi with | none => mx | some h => min h mx
      if lo ≤ top then (List.range (top + 1 - lo)).map (fun i => s.drop (top - i)) else []

/-- The preferred match of `r` anchored at the start of `s`, if any. -/
def firstMatch (r : Re) (s : List Char) : Option (List Char) :=
  match (r.nexts s).head? with
  | some suf => some (s.take (s.length - suf.length))
  | none => none

/-- Scan left to right for the first position where `r` matches:
the semantics of Python's `re.search`. -/
def searchAux (r : Re) : List Char → Option (List Char)
  | [] => firstMatch r []
  | c :: rest =>
    match firstMatch r (c :: rest) with
    | some m => some m
    | none => searchAux r rest

/-- Model of `re.search(pattern, s)`, returning `match.group(0)`. -/
def pySearch (r : Re) (s : String) : Option String :=
  (searchAux r s.data).map (fun m => String.mk m)

/-- One step of `re.findall`: collect non-overlapping matches left to
right, resuming after each match (one character further on an empty
match).  `fuel` bounds the recursion; `s.length + 1` always suffices. -/
def findallAux (r : Re) : Nat → List Char → List (List Char)
  | 0, _ => []
  | fuel + 1, s =>
    match firstMatch r s with
    | none =>
      match s with
      | [] => []
      | _ :: rest => findallAux r fuel rest
    | some m =>
      if m.length = 0 then
        match s with
        | [] => [m]
        | _ :: rest => m :: findallAux r fuel rest
      else m :: findallAux r fuel (s.drop m.length)

/-- Model of `re.findall(pattern, s)` (all patterns used by the scraper
are group-free, so `findall` returns whole matches). -/
def pyFindall (r : Re) (s : String) : List String :=
  (findallAux r (s.data.length + 1) s.data).map (fun m => String.mk m)

/-! ## Pattern library

Each definition transcribes one regular expression of
`src/website_scraper.py`.  `\d` and `\s` are modelled by their ASCII
parts; `re.sub(r'\D', '', p)` uses the complement of the same digit
class, so digit counts agree with the code. -/

def reStr (s : String) : Re := .lit s.data

/-- Class `[a-zA-Z0-9._%+-]` (the local part of the email pattern). -/
def localChar (c : Char) : Bool :=
  c.isAlpha || c.isDigit || c = '.' || c = '_' || c = '%' || c = '+' || c = '-'

/-- Class `[a-zA-Z0-9.-]` (the domain part of the email pattern). -/
def domainChar (c : Char) : Bool := c.isAlpha || c.isDigit || c = '.' || c = '-'

/-- Class `[a-zA-Z]`. -/
def alphaChar (c : Char) : Bool := c.isAlpha

/-- Class `\d` (ASCII part). -/
def digitChar (c : Char) : Bool := c.isDigit

/-- Class `[1-9]`. -/
def nonZeroDigit (c : Char) : Bool := '1' ≤ c && c ≤ '9'

/-- Class `\s` (ASCII part). -/
def spaceChar (c : Char) : Bool :=
  c = ' ' || c = '\t' || c = '\n' || c = '\r' || c = '\x0b' || c = '\x0c'

/-- Class `[-.\s]` (phone-number separators). -/
def phoneSep (c : Char) : Bool := c = '-' || c = '.' || spaceChar c

/-- Class `[a-zA-Z0-9-]` (LinkedIn slug characters). -/
def slugChar (c : Char) : Bool := c.isAlpha || c.isDigit || c = '-'

/-- Class `[^"]`. -/
def notQuote (c : Char) : Bool := !(c == '"')

/-- `[a-zA-Z0-9._%+-]+@[a-zA-Z0-9.-]+\.[a-zA-Z]{2,}` (line 79). -/
def emailRe : Re :=
  .cat (.rep localChar 1 none) (.cat (reStr "@")
    (.cat (.rep domainChar 1 none) (.cat (reStr ".") (.rep alphaChar 2 none))))

/-- `\+?[1-9]\d{1,14}` (line 102). -/
def phoneRe1 : Re :=
  .cat (.opt (reStr "+")) (.cat (.cls nonZeroDigit) (.rep digitChar 1 (some 14)))

/-- `\(\d{3}\)\s?\d{3}[-.\s]?\d{4}` (line 103). -/
def phoneRe2 : Re :=
  .cat (reStr "(") (.cat (.rep digitChar 3 (some 3)) (.cat (reStr ")")
    (.cat (.opt (.cls spaceChar)) (.cat (.rep digitChar 3 (some 3))
      (.cat (.opt (.cls phoneSep)) (.rep digitChar 4 (some 4)))))))

/-- `\d{3}[-.\s]?\d{3}[-.\s]?\d{4}` (line 104). -/
def phoneRe3 : Re :=
  .cat (.rep digitChar 3 (some 3)) (.cat (.opt (.cls phoneSep))
    (.cat (.rep digitChar 3 (some 3)) (.cat (.opt (.cls phoneSep))
      (.rep digitChar 4 (some 4)))))

/-- `https?://(?:www\.)?` followed by the literal `host`. -/
def urlRe (host : String) : Re :=
  .cat (reStr "http") (.cat (.opt (reStr "s"))
    (.cat (reStr "://") (.cat (.opt (reStr "www.")) (reStr host))))

/-- `https?://(?:www\.)?linkedin\.com/company/[a-zA-Z0-9-]+/?` (line 127). -/
def linkedinCompanyRe : Re :=
  .cat (urlRe "linkedin.com/company/") (.cat (.rep slugChar 1 none) (.opt (reStr "/")))

/-- `https?://(?:www\.)?linkedin\.com/in/[a-zA-Z0-9-]+/?` (line 128). -/
def linkedinInRe : Re :=
  .cat (urlRe "linkedin.com/in/") (.cat (.rep slugChar 1 none) (.opt (reStr "/")))

/-- The `linkedin` entry of `social_patterns` (line 151), including its
always-matching `|[^"]+` right alternative exactly as written in the
source. -/
def socialLinkedinRe : Re :=
  .alt (.cat (urlRe "linkedin.com/")
          (.cat (.alt (reStr "company") (reStr "in"))
            (.cat (reStr "/") (.rep notQuote 1 none))))
       (.rep notQuote 1 none)

/-- `https?://(?:www\.)?<host>/[^"]+`, the shape of the `twitter`,
`facebook`, `instagram`, `youtube` and `github` entries (lines 152-156). -/
def socialSiteRe (host : String) : Re :=
  .cat (urlRe host) (.rep notQuote 1 none)

/-- The `social_patterns` dictionary (lines 150-157), in source order. -/
def socialPatterns : List (String × Re) :=
  [("linkedin", socialLinkedinRe),
   ("twitter", socialSiteRe "twitter.com/"),
   ("facebook", socialSiteRe "facebook.com/"),
   ("instagram", socialSiteRe "instagram.com/"),
   ("youtube", socialSiteRe "youtube.com/"),
   ("github", socialSiteRe "github.com/")]

/-! ## The string extractors (`WebsiteScraper`, lines 69-164) -/

/-- The blocklist of line 85. -/
def blockedDomains : List String := ["example.com", "test.com", "sample.com"]

/-- Does the lower-cased email contain none of the blocklisted domains?
(the `if not any(x in e.lower() ...)` test of lines 83-86). -/
def keepEmail (e : String) : Bool :=
  !(blockedDomains.any (fun x => containsSeg e.data x.data))

/-- `WebsiteScraper.extract_emails` (lines 69-88): find all matches of
the email pattern, lower-case them, drop blocklisted ones,
de-duplicate, sort. -/
def extract_emails (content : String) : List String :=
  sortDistinct (((pyFindall emailRe content).map lowerStr).filter keepEmail)

/-- Digit count of a phone candidate: `len(re.sub(r'\D', '', p))`. -/
def digitCount (p : String) : Nat := (p.data.filter digitChar).length

/-- `WebsiteScraper.extract_phone_numbers` (lines 90-114): concatenate
the matches of the three phone patterns, keep candidates with at least
10 digits, de-duplicate, sort. -/
def extract_phone_numbers (content : String) : List String :=
  sortDistinct
    ((pyFindall phoneRe1 content ++ pyFindall phoneRe2 content ++
        pyFindall phoneRe3 content).filter (fun p => 10 ≤ digitCount p))

/-- `WebsiteScraper.extract_linkedin_url` (lines 116-136): search the
company pattern, then the personal pattern, returning the first hit. -/
def extract_linkedin_url (content : String) : Option String :=
  match pySearch linkedinCompanyRe content with
  | some m => some m
  | none => pySearch linkedinInRe content

/-- `WebsiteScraper.extract_social_links` (lines 138-164): for each
platform in `social_patterns` order, search its pattern and record the
first match.  The Python dict is modelled as an association list. -/
def extract_social_links (content : String) : List (String × String) :=
  socialPatterns.filterMap (fun pr => (pySearch pr.2 content).map (fun m => (pr.1, m)))

/-! ## DOM model

`extract_contact_info` and `extract_meta_info` operate on the tree
BeautifulSoup produces from the raw HTML.  The parser itself is an
external library, so it is modelled at the level of its output: a DOM
in first-child / next-sibling form (which makes document-order
traversal a plain structural recursion).  `Dom.elem tag attrs children
sibling` is an element node, `Dom.text s sibling` a text node, and
`Dom.nil` the end of a sibling list. -/

inductive Dom where
  | nil : Dom
  | text : String → Dom → Dom
  | elem : String → List (String × String) → Dom → Dom → Dom
deriving DecidableEq

/-- All text-node strings of a forest, in document order (the strings
BeautifulSoup's `get_text` joins). -/
def domStrings : Dom → List String
  | .nil => []
  | .text s rest => s :: domStrings rest
  | .elem _ _ cs rest => domStrings cs ++ domStrings rest

/-- `element.get_text(separator=' ')`: the subtree's strings joined
with a single space. -/
def getTextSp (cs : Dom) : String := String.intercalate " " (domStrings cs)

/-- `element.get_text()` (empty separator), used for the title tag. -/
def getTextCat (cs : Dom) : String := String.join (domStrings cs)

/-- First element (pre-order document order) whose tag and attributes
satisfy `p`: the semantics of `soup.find(...)`.  Returns the element's
tag, attributes and children. -/
def findElem (p : String → List (String × String) → Bool) :
    Dom → Option (String × List (String × String) × Dom)
  | .nil => none
  | .text _ rest => findElem p rest
  | .elem t a cs rest =>
    if p t a then some (t, a, cs)
    else
      match findElem p cs with
      | some r => some r
      | none => findElem p rest

/-- Attribute lookup on an element, `tag.get(key)`. -/
def lookupAttr (attrs : List (String × String)) (k : String) : Option String :=
  (attrs.find? (fun kv => kv.1 == k)).map (fun kv => kv.2)

/-- Does the element's `class` attribute match
`re.compile('contact|footer', re.I)` (line 187)?  Case-insensitivity is
modelled by lower-casing the attribute value; neither needle contains
whitespace, so searching the whole attribute value coincides with
BeautifulSoup's per-class-token matching. -/
def classContactFooter (attrs : List (String × String)) : Bool :=
  match lookupAttr attrs "class" with
  | none => false
  | some v =>
    containsSeg (lowerStr v).data "contact".data ||
      containsSeg (lowerStr v).data "footer".data

/-- The filter of `soup.find(['div', 'section'], {'class': ...})`
(lines 185-188). -/
def contactPred (t : String) (attrs : List (String × String)) : Bool :=
  (t == "div" || t == "section") && classContactFooter attrs

/-- Filter for `soup.find('title')` (line 225). -/
def titlePred (t : String) (_ : List (String × String)) : Bool := t == "title"

/-- Filter for `soup.find('meta', attrs={'name': 'description'})` (line 230). -/
def descPred (t : String) (attrs : List (String × String)) : Bool :=
  t == "meta" && (lookupAttr attrs "name" == some "description")

/-- Filter for `soup.find('meta', attrs={'name': 'keywords'})` (line 235). -/
def keywordsPred (t : String) (attrs : List (String × String)) : Bool :=
  t == "meta" && (lookupAttr attrs "name" == some "keywords")

/-- ASCII model of Python's `str.strip()`. -/
def pyStrip (s : String) : String :=
  String.mk (((s.data.dropWhile spaceChar).reverse.dropWhile spaceChar).reverse)

/-- The `contact_info` dictionary built by `extract_contact_info`
(lines 178-182): exactly the keys `email`, `phone`, `address`. -/
structure ContactInfo where
  email : Option (List String)
  phone : Option (List String)
  address : Option String
deriving DecidableEq

/-- `WebsiteScraper.extract_contact_info` (lines 166-203), from the
parsed document: find the first `div`/`section` whose class matches
`contact|footer`, re-run the email and phone extractors on that
element's text only, and store each list when non-empty.  `address` is
initialised to `None` and never assigned. -/
def extract_contact_info (doc : Dom) : ContactInfo :=
  match findElem contactPred doc with
  | none => ⟨none, none, none⟩
  | some (_, _, cs) =>
    let text := getTextSp cs
    let emails := extract_emails text
    let phones := extract_phone_numbers text
    ⟨if emails = [] then none else some emails,
     if phones = [] then none else some phones, none⟩

/-- The `meta_info` dictionary built by `extract_meta_info`
(lines 218-222). -/
structure MetaInfo where
  title : Option String
  description : Option String
  keywords : Option String
deriving DecidableEq

/-- `WebsiteScraper.extract_meta_info` (lines 205-239): title text and
the `content` attributes of the description and keywords meta tags,
each stripped; `None` when the tag is missing. -/
def extract_meta_info (doc : Dom) : MetaInfo :=
  { title := (findElem titlePred doc).map (fun r => pyStrip (getTextCat r.2.2))
    description :=
      (findElem descPred doc).map (fun r => pyStrip ((lookupAttr r.2.1 "content").getD ""))
    keywords :=
      (findElem keywordsPred doc).map (fun r => pyStrip ((lookupAttr r.2.1 "content").getD "")) }

/-! ## Fetch and orchestration layer (lines 39-67, 241-289, 363-405)

The network is modelled as an oracle `net : String → FetchOutcome`
giving, for each URL, either the response body (after
`raise_for_status`) or the exception class `requests.get` raises; the
wall-clock timestamp and logging are outside the model.  BeautifulSoup
is the oracle `parse : String → Dom`. -/

inductive FetchOutcome where
  | ok : String → FetchOutcome
  | timeout : FetchOutcome
  | connError : FetchOutcome
  | reqError : String → FetchOutcome

/-- Does the outcome correspond to one of the three `except` branches
of `fetch_website` (lines 59-67)? -/
def isFetchError : FetchOutcome → Bool
  | .ok _ => false
  | _ => true

/-- The URL normalisation of lines 51-52 and 256-259:
`if not url.startswith('http'): url = 'https://' + url`. -/
def normalizeUrl (u : String) : String :=
  if pyStartswith u "http" then u else "https://" ++ u

/-- `WebsiteScraper.fetch_website` (lines 39-67): normalise the URL,
issue the request, and collapse every `requests` exception to `None`. -/
def fetch_website (net : String → FetchOutcome) (url : String) : Option String :=
  match net (normalizeUrl url) with
  | .ok body => some body
  | _ => none

/-- The per-target result dictionary of `scrape_website`
(lines 266-272 on failure, 275-286 on success).  Success-only keys are
`Option`al: `none` means the key is absent from the dictionary.  The
`timestamp` key (wall clock) is outside the model. -/
structure ScrapeResult where
  website : String
  url : String
  status : String
  error : Option String
  emails : Option (List String)
  phone_numbers : Option (List String)
  linkedin : Option (Option String)
  social_media : Option (List (String × String))
  contact_info : Option ContactInfo
  meta_info : Option MetaInfo

/-- The failure dictionary of lines 266-272. -/
def failedResult (website_name url : String) : ScrapeResult :=
  { website := website_name, url := url, status := "failed",
    error := some ("Failed to fetch " ++ website_name),
    emails := none, phone_numbers := none, linkedin := none,
    social_media := none, contact_info := none, meta_info := none }

/-- `WebsiteScraper.scrape_website` (lines 241-289).  Note the `if not
content:` test of line 263 treats an empty body like a fetch failure. -/
def scrape_website (net : String → FetchOutcome) (parse : String → Dom)
    (website_name : String) : ScrapeResult :=
  let url := normalizeUrl website_name
  match fetch_website net url with
  | none => failedResult website_name url
  | some content =>
    if content = "" then failedResult website_name url
    else
      { website := website_name, url := url, status := "success", error := none,
        emails := some (extract_emails content),
        phone_numbers := some (extract_phone_numbers content),
        linkedin := some (extract_linkedin_url content),
        social_media := some (extract_social_links content),
        contact_info := some (extract_contact_info (parse content)),
        meta_info := some (extract_meta_info (parse content)) }

/-- The orchestrator loop of `main` (lines 390-397), minus printing and
the inter-request delay: one result per target, in input order. -/
def runAll (net : String → FetchOutcome) (parse : String → Dom)
    (targets : List String) : List ScrapeResult :=
  targets.map (scrape_website net parse)

/-- The tuple of extraction-pass fields of a successful ScrapeResult
(lines 280-285), as one value. -/
def extractionFields (parse : String → Dom) (content : String) :
    List String × List String × Option String × List (String × String) ×
      ContactInfo × MetaInfo :=
  (extract_emails content, extract_phone_numbers content,
   extract_linkedin_url content, extract_social_links content,
   extract_contact_info (parse content), extract_meta_info (parse content))

/-- Modelled from the spec for comparison with the code: "normalized by
prefixing `https://` when no scheme is present" — a target "carries a
scheme" when it begins with an RFC-3986-style scheme, a letter followed
by letters, digits, `+`, `-` or `.`, then `://`. -/
def specHasUrlScheme (s : String) : Bool :=
  match s.data with
  | [] => false
  | c :: _ =>
    c.isAlpha &&
      (let body := s.data.takeWhile (fun d => d.isAlpha || d.isDigit || d = '+' || d = '-' || d = '.')
       ("://").data.isPrefixOf (s.data.drop body.length))

/-! ## Order and sorting lemmas -/

theorem lexLe_total : ∀ as bs : List Char, lexLe as bs = true ∨ lexLe bs as = true
  | [], _ => Or.inl rfl
  | _ :: _, [] => Or.inr rfl
  | a :: as, b :: bs => by
    by_cases hab : a < b
    · exact Or.inl (by simp [lexLe, hab])
    · by_cases hba : b < a
      · exact Or.inr (by simp [lexLe, hba])
      · have heq : a = b := le_antisymm (not_lt.mp hba) (not_lt.mp hab)
        subst heq
        rcases lexLe_total as bs with h | h
        · exact Or.inl (by simp [lexLe, lt_irrefl, h])
        · exact Or.inr (by simp [lexLe, lt_irrefl, h])

theorem lexLe_trans : ∀ as bs cs : List Char,
    lexLe as bs = true → lexLe bs cs = true → lexLe as cs = true
  | [], _, _, _, _ => rfl
  | _ :: _, [], _, h, _ => by simp [lexLe] at h
  | _ :: _, _ :: _, [], _, h => by simp [lexLe] at h
  | a :: as, b :: bs, c :: cs, h₁, h₂ => by
    simp only [lexLe] at h₁ h₂ ⊢
    by_cases hab : a < b
    · by_cases hbc : b < c
      · simp [hab.trans hbc]
      · by_cases hbc' : b = c
        · subst hbc'; simp [hab]
        · simp [hbc, hbc'] at h₂
    · by_cases hab' : a = b
      · subst hab'
        by_cases hac : a < c
        · simp [hac]
        · by_cases hac' : a = c
          · subst hac'
            simp only [lt_irrefl, if_false, if_pos rfl] at h₁ h₂ ⊢
            exact lexLe_trans as bs cs h₁ h₂
          · simp [hac, hac'] at h₂
      · simp [hab, hab'] at h₁

instance strLeIsTotal : IsTotal String (fun a b => strLe a b = true) :=
  ⟨fun a b => lexLe_total a.data b.data⟩

instance strLeIsTrans : IsTrans String (fun a b => strLe a b = true) :=
  ⟨fun a b c => lexLe_trans a.data b.data c.data⟩

theorem lt_of_lexLe_of_ne : ∀ {as bs : List Char}, lexLe as bs = true → as ≠ bs → as < bs
  | [], [], _, hne => absurd rfl hne
  | [], b :: bs, _, _ => List.nil_lt_cons b bs
  | _ :: _, [], h, _ => by simp [lexLe] at h
  | a :: as, b :: bs, h, hne => by
    by_cases hab : a < b
    · exact List.Lex.rel hab
    · by_cases hab' : a = b
      · subst hab'
        have h' : lexLe as bs = true := by simpa [lexLe, lt_irrefl] using h
        have hne' : as ≠ bs := fun e => hne (by rw [e])
        exact List.Lex.cons (lt_of_lexLe_of_ne h' hne')
      · simp [lexLe, hab, hab'] at h

theorem strLt_of_strLe_of_ne {a b : String} (h : strLe a b = true) (hne : a ≠ b) :
    a < b :=
  String.lt_iff_toList_lt.mpr
    (lt_of_lexLe_of_ne h (fun e => hne (String.toList_inj.mp e)))

theorem sortDistinct_perm (l : List String) : (sortDistinct l).Perm l.dedup :=
  List.perm_insertionSort _ _

theorem sortDistinct_nodup (l : List String) : (sortDistinct l).Nodup :=
  ((sortDistinct_perm l).nodup_iff).mpr l.nodup_dedup

theorem mem_sortDistinct {a : String} {l : List String} :
    a ∈ sortDistinct l ↔ a ∈ l := by
  rw [(sortDistinct_perm l).mem_iff, List.mem_dedup]

theorem sortDistinct_sorted (l : List String) : (sortDistinct l).Sorted (· < ·) := by
  have hs : (sortDistinct l).Sorted (fun a b => strLe a b = true) :=
    List.sorted_insertionSort _ _
  have hn : (sortDistinct l).Pairwise (fun a b => a ≠ b) := sortDistinct_nodup l
  exact (List.Pairwise.and hs hn).imp (fun h => strLt_of_strLe_of_ne h.1 h.2)

/-! ## Lower-casing lemmas -/

theorem lowerPairs_snd_not_fst :
    ∀ p ∈ lowerPairs, lowerPairs.all (fun q => q.1 != p.2) = true := by decide

theorem lowerChar_idem (c : Char) : lowerChar (lowerChar c) = lowerChar c := by
  cases h : lowerPairs.find? (fun p => p.1 == c) with
  | none => simp [lowerChar, h]
  | some p =>
    have hp : p ∈ lowerPairs := List.mem_of_find?_eq_some h
    have hnone : lowerPairs.find? (fun q => q.1 == p.2) = none := by
      rw [List.find?_eq_none]
      intro q hq
      have := (List.all_eq_true.mp (lowerPairs_snd_not_fst p hp)) q hq
      simpa using this
    simp [lowerChar, h, hnone]

theorem lowerStr_idem (s : String) : lowerStr (lowerStr s) = lowerStr s := by
  simp [lowerStr, List.map_map, Function.comp_def, lowerChar_idem]

/-! ## Substring lemmas -/

theorem isPrefixOf_refl : ∀ l : List Char, l.isPrefixOf l = true
  | [] => rfl
  | c :: cs => by simp [List.isPrefixOf, isPrefixOf_refl cs]

theorem containsSeg_of_suffix {hay nd : List Char} (h : nd <:+ hay) :
    containsSeg hay nd = true := by
  obtain ⟨p, rfl⟩ := h
  induction p with
  | nil =>
    cases nd with
    | nil => rfl
    | cons c cs => simp [containsSeg, isPrefixOf_refl]
  | cons c p ih => simp [containsSeg, ih]

/-- The domain of an email candidate: everything after the first `@`. -/
def emailDomain (e : String) : String :=
  String.mk ((e.data.dropWhile (fun c => !(c == '@'))).drop 1)

theorem emailDomain_suffix (e : String) : (emailDomain e).data <:+ e.data :=
  (List.drop_suffix 1 _).trans (List.dropWhile_suffix _)

/-! ## Decompositions of the extractors -/

theorem mem_extract_emails {e c : String} (h : e ∈ extract_emails c) :
    e ∈ (pyFindall emailRe c).map lowerStr ∧ keepEmail e = true := by
  rw [extract_emails, mem_sortDistinct, List.mem_filter] at h
  exact h

theorem extract_emails_lower_fixed {e c : String} (h : e ∈ extract_emails c) :
    lowerStr e = e := by
  obtain ⟨hm, -⟩ := mem_extract_emails h
  obtain ⟨x, -, rfl⟩ := List.mem_map.mp hm
  exact lowerStr_idem x

theorem emailDomain_not_blocked {e c : String} (h : e ∈ extract_emails c) :
    emailDomain e ∉ blockedDomains := by
  obtain ⟨-, hk⟩ := mem_extract_emails h
  intro hmem
  have hseg : containsSeg e.data (emailDomain e).data = true :=
    containsSeg_of_suffix (emailDomain_suffix e)
  have hany : blockedDomains.any (fun x => containsSeg e.data x.data) = true :=
    List.any_eq_true.mpr ⟨emailDomain e, hmem, hseg⟩
  rw [keepEmail, hany] at hk
  simp at hk

theorem mem_extract_phone_numbers {p c : String} (h : p ∈ extract_phone_numbers c) :
    10 ≤ digitCount p := by
  rw [extract_phone_numbers, mem_sortDistinct, List.mem_filter] at h
  simpa using h.2

/-! ## Auxiliary lemmas for the fetch layer -/

theorem startsWith_https_prefixed (u : String) :
    pyStartswith ("https://" ++ u) "http" = true := by
  have hd : ("https://" ++ u).data =
      'h' :: 't' :: 't' :: 'p' :: 's' :: ':' :: '/' :: '/' :: u.data := rfl
  simp [pyStartswith, hd, List.isPrefixOf]

theorem normalizeUrl_idem (u : String) : normalizeUrl (normalizeUrl u) = normalizeUrl u := by
  by_cases h : pyStartswith u "http" = true
  · simp [normalizeUrl, h]
  · have h' : pyStartswith u "http" = false := by simpa using h
    simp [normalizeUrl, h', startsWith_https_prefixed]

theorem failed_error_ne (w : String) : "Failed to fetch " ++ w ≠ "" := by
  intro h
  have h2 : "Failed to fetch ".data ++ w.data = [] := congrArg String.data h
  have h3 := List.append_eq_nil.mp h2
  simp at h3

/-! ## Concrete documents used by the claims' examples -/

/-- A page whose only contact/footer element is a `div` with class
`footer-contact`; one extra email lives outside it. -/
def exContactPage : String :=
  "<p>info@acme.com</p><div class=\"footer-contact\">help@acme.com</div>"

/-- The DOM BeautifulSoup produces from `exContactPage`. -/
def exContactDoc : Dom :=
  .elem "p" [] (.text "info@acme.com" .nil)
    (.elem "div" [("class", "footer-contact")] (.text "help@acme.com" .nil) .nil)

/-- The DOM of a page with a title tag and a description meta tag. -/
def exMetaDoc : Dom :=
  .elem "title" [] (.text "Acme Corp" .nil)
    (.elem "meta" [("name", "description"), ("content", "We build things")] .nil .nil)

/-! ## Claims -/

/-- Claim C1: for every content string, `extract_emails` returns a list
that is sorted lexicographically ascending, has no duplicates even
case-insensitively, and contains no entry whose domain is blocklisted;
and on content containing exactly `contact@example.com` and
`sales@acme.com` it returns `['sales@acme.com']` only. -/
theorem extract_emails_spec (c : String) :
    (extract_emails c).Sorted (· < ·) ∧
    ((extract_emails c).map lowerStr).Nodup ∧
    (∀ e ∈ extract_emails c, emailDomain e ∉ blockedDomains) ∧
    extract_emails "Email: contact@example.com or sales@acme.com" = ["sales@acme.com"] := by
  refine ⟨sortDistinct_sorted _, ?_, fun e he => emailDomain_not_blocked he, by decide⟩
  have h1 : (extract_emails c).map lowerStr = (extract_emails c).map id :=
    List.map_congr_left (fun e he => extract_emails_lower_fixed he)
  rw [h1, List.map_id]
  exact sortDistinct_nodup _

/-- Witness for C1: `sales@acme.com` is in the concrete output and its
domain is not blocklisted. -/
theorem extract_emails_spec_witness :
    "sales@acme.com" ∈ extract_emails "Email: contact@example.com or sales@acme.com" ∧
    emailDomain "sales@acme.com" ∉ blockedDomains :=
  ⟨by decide,
   (extract_emails_spec "Email: contact@example.com or sales@acme.com").2.2.1
     "sales@acme.com" (by decide)⟩

/-- Claim C2: a platform is a key of `extract_social_links content`
with value `u` exactly when its pattern in `social_patterns` has a
first (leftmost) match `u` in the content; a platform whose pattern
does not match is absent. -/
theorem extract_social_links_spec (c p u : String) :
    (p, u) ∈ extract_social_links c ↔
      ∃ re, (p, re) ∈ socialPatterns ∧ pySearch re c = some u := by
  rw [extract_social_links, List.mem_filterMap]
  constructor
  · rintro ⟨⟨q, re⟩, hpr, hmap⟩
    obtain ⟨m, hm, heq⟩ := Option.map_eq_some'.mp hmap
    injection heq with h1 h2
    subst h1; subst h2
    exact ⟨re, hpr, hm⟩
  · rintro ⟨re, hre, hs⟩
    exact ⟨(p, re), hre, by simp [hs]⟩

/-- Witness for C2 at concrete content containing a Twitter URL. -/
theorem extract_social_links_spec_witness :
    ("twitter", "https://twitter.com/acme now") ∈
      extract_social_links "visit https://twitter.com/acme now" :=
  (extract_social_links_spec _ _ _).mpr
    ⟨socialSiteRe "twitter.com/", by simp [socialPatterns], by decide⟩

/-- Claim C3: every phone number returned by `extract_phone_numbers`
has at least 10 digits after removing non-digit characters, and the
returned list is de-duplicated and sorted ascending. -/
theorem extract_phone_numbers_spec (c : String) :
    (extract_phone_numbers c).Sorted (· < ·) ∧
    (extract_phone_numbers c).Nodup ∧
    ∀ p ∈ extract_phone_numbers c, 10 ≤ digitCount p :=
  ⟨sortDistinct_sorted _, sortDistinct_nodup _, fun _ hp => mem_extract_phone_numbers hp⟩

/-- Witness for C3 at concrete content containing one valid phone number. -/
theorem extract_phone_numbers_spec_witness :
    "(555) 123-4567" ∈ extract_phone_numbers "Call (555) 123-4567 today" ∧
    10 ≤ digitCount "(555) 123-4567" :=
  ⟨by decide,
   (extract_phone_numbers_spec "Call (555) 123-4567 today").2.2 "(555) 123-4567" (by decide)⟩

/-- Claim C4: `extract_linkedin_url` tries the company pattern before
the personal pattern: a company match is returned whenever one exists,
otherwise the personal search decides, and the result is `none` when
neither pattern matches. -/
theorem extract_linkedin_url_spec (c : String) :
    (∀ m, pySearch linkedinCompanyRe c = some m → extract_linkedin_url c = some m) ∧
    (pySearch linkedinCompanyRe c = none →
      extract_linkedin_url c = pySearch linkedinInRe c) ∧
    (pySearch linkedinCompanyRe c = none → pySearch linkedinInRe c = none →
      extract_linkedin_url c = none) := by
  refine ⟨fun m hm => ?_, fun h => ?_, fun h h' => ?_⟩ <;> simp [extract_linkedin_url, *]

/-- Witness for C4: content with both URLs yields the company one, and
content with only a personal URL falls through to the personal search. -/
theorem extract_linkedin_url_spec_witness :
    extract_linkedin_url
        "See https://www.linkedin.com/company/acme/ and https://linkedin.com/in/jdoe now" =
      some "https://www.linkedin.com/company/acme/" ∧
    extract_linkedin_url "profile https://linkedin.com/in/jdoe here" =
      pySearch linkedinInRe "profile https://linkedin.com/in/jdoe here" :=
  ⟨(extract_linkedin_url_spec _).1 "https://www.linkedin.com/company/acme/" (by decide),
   (extract_linkedin_url_spec _).2.1 (by decide)⟩

/-- Claim C5: the contact-info email/phone fields come from re-running
the extractors on the text of the first `div`/`section` whose class
matches contact/footer, and are absent when no such element exists; on
the concrete footer-contact document the scoped email list is
`['help@acme.com']` while the page-wide list has a second address. -/
theorem extract_contact_info_scoped (doc : Dom) :
    (findElem contactPred doc = none →
      (extract_contact_info doc).email = none ∧ (extract_contact_info doc).phone = none) ∧
    (∀ t a cs, findElem contactPred doc = some (t, a, cs) →
      (extract_contact_info doc).email =
        (if extract_emails (getTextSp cs) = [] then none
         else some (extract_emails (getTextSp cs))) ∧
      (extract_contact_info doc).phone =
        (if extract_phone_numbers (getTextSp cs) = [] then none
         else some (extract_phone_numbers (getTextSp cs)))) ∧
    ((extract_contact_info exContactDoc).email = some ["help@acme.com"] ∧
      extract_emails exContactPage = ["help@acme.com", "info@acme.com"]) := by
  refine ⟨fun h => ?_, fun t a cs h => ?_, by decide⟩
  · simp [extract_contact_info, h]
  · simp [extract_contact_info, h]

/-- Witness for C5: a document with no contact section has an absent
email field, and the example document's field equals the scoped
extraction over its footer-contact div. -/
theorem extract_contact_info_scoped_witness :
    (extract_contact_info Dom.nil).email = none ∧
    (extract_contact_info exContactDoc).email =
      (if extract_emails (getTextSp (Dom.text "help@acme.com" Dom.nil)) = [] then none
       else some (extract_emails (getTextSp (Dom.text "help@acme.com" Dom.nil)))) :=
  ⟨((extract_contact_info_scoped Dom.nil).1 (by decide)).1,
   ((extract_contact_info_scoped exContactDoc).2.1 "div" [("class", "footer-contact")]
      (Dom.text "help@acme.com" Dom.nil) (by decide)).1⟩

/-- Claim C6: meta extraction reads the title text and the content
attributes of the description/keywords meta tags, each field absent
when its tag is missing; the concrete example yields title `Acme Corp`
and description `We build things`. -/
theorem extract_meta_info_spec (doc : Dom) :
    (findElem titlePred doc = none → (extract_meta_info doc).title = none) ∧
    (findElem descPred doc = none → (extract_meta_info doc).description = none) ∧
    (findElem keywordsPred doc = none → (extract_meta_info doc).keywords = none) ∧
    (∀ t a cs, findElem titlePred doc = some (t, a, cs) →
      (extract_meta_info doc).title = some (pyStrip (getTextCat cs))) ∧
    (∀ t a cs, findElem descPred doc = some (t, a, cs) →
      (extract_meta_info doc).description =
        some (pyStrip ((lookupAttr a "content").getD ""))) ∧
    ((extract_meta_info exMetaDoc).title = some "Acme Corp" ∧
      (extract_meta_info exMetaDoc).description = some "We build things") := by
  refine ⟨fun h => ?_, fun h => ?_, fun h => ?_,
    fun t a cs h => ?_, fun t a cs h => ?_, by decide⟩ <;>
  simp [extract_meta_info, h]

/-- Witness for C6: the empty document has an absent title, and the
example document's title is the stripped text of its title tag. -/
theorem extract_meta_info_spec_witness :
    (extract_meta_info Dom.nil).title = none ∧
    (extract_meta_info exMetaDoc).title =
      some (pyStrip (getTextCat (Dom.text "Acme Corp" Dom.nil))) :=
  ⟨(extract_meta_info_spec Dom.nil).1 (by decide),
   (extract_meta_info_spec exMetaDoc).2.2.2.1 "title" [] (Dom.text "Acme Corp" Dom.nil)
     (by decide)⟩

/-- Claim C7: a fetch-layer failure (timeout, connection error or other
request error) yields a ScrapeResult with status `failed`, a non-empty
error message and no success fields, and the orchestrator's result list
keeps processing the surrounding targets. -/
theorem fetch_failure_spec (net : String → FetchOutcome) (parse : String → Dom)
    (t : String) (hfail : isFetchError (net (normalizeUrl t)) = true) :
    ((scrape_website net parse t).status = "failed" ∧
      (∃ m, (scrape_website net parse t).error = some m ∧ m ≠ "") ∧
      (scrape_website net parse t).emails = none ∧
      (scrape_website net parse t).phone_numbers = none ∧
      (scrape_website net parse t).linkedin = none ∧
      (scrape_website net parse t).social_media = none ∧
      (scrape_website net parse t).contact_info = none ∧
      (scrape_website net parse t).meta_info = none) ∧
    (∀ ts1 ts2 : List String,
      runAll net parse (ts1 ++ t :: ts2) =
        runAll net parse ts1 ++ scrape_website net parse t :: runAll net parse ts2) := by
  have hnet : fetch_website net (normalizeUrl t) = none := by
    rw [fetch_website, normalizeUrl_idem]
    cases hn : net (normalizeUrl t) with
    | ok body => rw [hn] at hfail; simp [isFetchError] at hfail
    | timeout => rfl
    | connError => rfl
    | reqError m => rfl
  constructor
  · simp only [scrape_website, hnet]
    exact ⟨rfl, ⟨_, rfl, failed_error_ne t⟩, rfl, rfl, rfl, rfl, rfl, rfl⟩
  · intro ts1 ts2
    simp [runAll]

/-- Witness for C7 with a network oracle that always times out. -/
theorem fetch_failure_spec_witness :
    (scrape_website (fun _ => FetchOutcome.timeout) (fun _ => Dom.nil) "acme.com").status =
      "failed" :=
  ((fetch_failure_spec (fun _ => FetchOutcome.timeout) (fun _ => Dom.nil) "acme.com"
      (by decide)).1).1

/-- Claim C8 counterexample: `ftp://files.example.org` carries a URL
scheme, yet normalization does not leave it unchanged — the code tests
`startswith('http')`, not the presence of a scheme. -/
theorem normalize_scheme_cex :
    specHasUrlScheme "ftp://files.example.org" = true ∧
    normalizeUrl "ftp://files.example.org" ≠ "ftp://files.example.org" := by decide

/-- Claim C8 as amended: normalization prefixes `https://` exactly when
the target does not start with the string `http`, leaves targets
starting with `http` unchanged, and the ScrapeResult records the
normalized URL. -/
theorem normalize_url_spec (net : String → FetchOutcome) (parse : String → Dom)
    (t : String) :
    (scrape_website net parse t).url = normalizeUrl t ∧
    (pyStartswith t "http" = true → normalizeUrl t = t) ∧
    (pyStartswith t "http" = false → normalizeUrl t = "https://" ++ t) := by
  refine ⟨?_, fun h => by simp [normalizeUrl, h], fun h => by simp [normalizeUrl, h]⟩
  rw [scrape_website]
  cases hf : fetch_website net (normalizeUrl t) with
  | none => simp [hf, failedResult]
  | some content =>
    by_cases hc : content = "" <;> simp [hf, hc, failedResult]

/-- Witness for C8's amended statement on a bare host and on a target
already starting with `http`. -/
theorem normalize_url_spec_witness :
    normalizeUrl "acme.com" = "https://" ++ "acme.com" ∧
    normalizeUrl "https://acme.com" = "https://acme.com" :=
  ⟨(normalize_url_spec (fun _ => FetchOutcome.timeout) (fun _ => Dom.nil) "acme.com").2.2
     (by decide),
   (normalize_url_spec (fun _ => FetchOutcome.timeout) (fun _ => Dom.nil)
      "https://acme.com").2.1 (by decide)⟩

/-- Claim C9: the extraction pass is deterministic — on equal content
the six extraction fields coincide, and scraping the same target twice
in one run produces two identical records (the wall-clock timestamp is
outside the model, as the claim excludes it). -/
theorem extraction_deterministic (parse : String → Dom) (c c' : String) (h : c = c') :
    extractionFields parse c = extractionFields parse c' ∧
    ∀ net t, runAll net parse [t, t] =
      [scrape_website net parse t, scrape_website net parse t] := by
  subst h
  exact ⟨rfl, fun _ _ => rfl⟩

/-- Witness for C9 at a concrete parse oracle and content. -/
theorem extraction_deterministic_witness :
    extractionFields (fun _ => Dom.nil) "x" = extractionFields (fun _ => Dom.nil) "x" :=
  (extraction_deterministic (fun _ => Dom.nil) "x" "x" rfl).1

/-- Claim C10: `extract_contact_info` always leaves `address` absent,
and the email (resp. phone) field is absent exactly when there is no
contact section or the scoped extraction finds nothing; a present field
is never the empty list. -/
theorem contact_info_shape (doc : Dom) :
    (extract_contact_info doc).address = none ∧
    ((extract_contact_info doc).email = none ↔
      (findElem contactPred doc = none ∨
        ∃ t a cs, findElem contactPred doc = some (t, a, cs) ∧
          extract_emails (getTextSp cs) = [])) ∧
    ((extract_contact_info doc).phone = none ↔
      (findElem contactPred doc = none ∨
        ∃ t a cs, findElem contactPred doc = some (t, a, cs) ∧
          extract_phone_numbers (getTextSp cs) = [])) ∧
    (∀ l, (extract_contact_info doc).email = some l → l ≠ []) ∧
    (∀ l, (extract_contact_info doc).phone = some l → l ≠ []) := by
  cases hf : findElem contactPred doc with
  | none => simp [extract_contact_info, hf]
  | some r =>
    obtain ⟨t, a, cs⟩ := r
    by_cases he : extract_emails (getTextSp cs) = [] <;>
      by_cases hp : extract_phone_numbers (getTextSp cs) = [] <;>
        simp [extract_contact_info, hf, he, hp] <;>
        first
        | exact ⟨⟨t, a, cs, ⟨rfl, rfl, rfl⟩, he⟩, t, a, cs, ⟨rfl, rfl, rfl⟩, hp⟩
        | exact ⟨t, a, cs, ⟨rfl, rfl, rfl⟩, he⟩
        | exact ⟨t, a, cs, ⟨rfl, rfl, rfl⟩, hp⟩

/-- Witness for C10 at the example document: address is absent and the
present email field is non-empty. -/
theorem contact_info_shape_witness :
    (extract_contact_info exContactDoc).address = none ∧
    (["help@acme.com"] : List String) ≠ [] :=
  ⟨(contact_info_shape exContactDoc).1,
   (contact_info_shape exContactDoc).2.2.2.1 ["help@acme.com"] (by decide)⟩

end Scraper
